import Mathlib

/-!
Shallow embedding of the usc-testnet-bridge-examples repository: the loan
lifecycle state machine (`USCLoanManager.sol`), the proof-gated execute entry
points (`USCBase.sol`, `SimpleMinterUSC.sol`), the off-chain polling engine
(`bridge-offchain-worker/worker.ts`, `utils/index.ts`) and the gas estimator.

Solidity `revert` / `require` failures are modelled as `Except.error msg`
carrying the exact require string; a revert discards all state changes, so an
`error` result leaves the caller's state untouched by construction.  Machine
integers (`uint256`, `uint64`, `uint8`) are modelled as `Nat`; the contracts
under consideration only add and compare, and loan amounts never approach
`2^256` in any reachable path relevant to the claims, so `% 2^256` reductions
are omitted except where the source truncates (`address(uint160(...))`).
External cryptographic primitives (keccak256, ECDSA recovery, the native query
verifier precompile) are parameters of the model, exactly as the spec treats
them (external collaborators consumed at their boundary).
-/

namespace USC

/-! ## Loan data model (`contracts/sol/LoanTypes.sol`) -/

/-- `struct LoanFlow { address from; address to; address withToken; }`
(`from` is a Lean keyword, hence `fromAddr`). -/
structure LoanFlow where
  fromAddr : Nat
  toAddr : Nat
  withToken : Nat
deriving DecidableEq

/-- `enum LoanStatus { Created, Funded, PartlyRepaid, Repaid, Expired }` -/
inductive LoanStatus where
  | Created
  | Funded
  | PartlyRepaid
  | Repaid
  | Expired
deriving DecidableEq

/-- `struct LoanTerms` : amounts, rate in basis points, deadline block. -/
structure LoanTerms where
  loanAmount : Nat
  interestRate : Nat
  expectedRepaymentAmount : Nat
  deadlineBlockNumber : Nat
deriving DecidableEq

/-- `struct LoanOrder` from LoanTypes.sol.  Signatures are byte strings,
modelled as lists of bytes. -/
structure LoanOrder where
  fundFlow : LoanFlow
  repayFlow : LoanFlow
  terms : LoanTerms
  signatureOfLender : List Nat
  signatureOfBorrower : List Nat
  createdAtBlock : Nat
  status : LoanStatus
  repaidAmount : Nat
deriving DecidableEq

/-! ## Per-loan transitions (`contracts/sol/USCLoanManager.sol`)

The three state transitions below are the bodies of `_markLoanAsFunded`
(lines 158-163), `_noteLoanRepayment` (lines 172-187) and `markLoanAsExpired`
(lines 195-200), after the event payload has been decoded: each reads
`loanOrders[loanId]`, checks its guards with `require`, and mutates the loan
in storage.  `blockNumber` is Solidity's `block.number` at call time. -/

/-- Core of `_markLoanAsFunded`:
`require(loan.status == LoanStatus.Created, "Loan is not in Created status");`
`require(block.number <= loan.terms.deadlineBlockNumber, "Loan has expired");`
then `loan.status = LoanStatus.Funded`. -/
def markLoanAsFundedStep (blockNumber : Nat) (loan : LoanOrder) :
    Except String LoanOrder :=
  if loan.status ≠ LoanStatus.Created then
    .error "Loan is not in Created status"
  else if ¬ blockNumber ≤ loan.terms.deadlineBlockNumber then
    .error "Loan has expired"
  else
    .ok { loan with status := LoanStatus.Funded }

/-- Core of `_noteLoanRepayment`: requires status `Funded` or `PartlyRepaid`
and `block.number <= deadlineBlockNumber`; then `loan.repaidAmount += amount`
and the status becomes `Repaid` when
`loan.repaidAmount >= loan.terms.expectedRepaymentAmount`, else
`PartlyRepaid`. -/
def noteLoanRepaymentStep (blockNumber amount : Nat) (loan : LoanOrder) :
    Except String LoanOrder :=
  if ¬ (loan.status = LoanStatus.Funded ∨ loan.status = LoanStatus.PartlyRepaid) then
    .error "Invalid loan status for repayment"
  else if ¬ blockNumber ≤ loan.terms.deadlineBlockNumber then
    .error "Loan has expired"
  else
    let repaid := loan.repaidAmount + amount
    if loan.terms.expectedRepaymentAmount ≤ repaid then
      .ok { loan with repaidAmount := repaid, status := LoanStatus.Repaid }
    else
      .ok { loan with repaidAmount := repaid, status := LoanStatus.PartlyRepaid }

/-- `markLoanAsExpired` body:
`require(loan.status != Repaid && loan.status != Expired, "Loan already finalized");`
`require(block.number >= loan.terms.deadlineBlockNumber, "Loan has not expired yet");`
then `loan.status = LoanStatus.Expired`. -/
def markLoanAsExpiredStep (blockNumber : Nat) (loan : LoanOrder) :
    Except String LoanOrder :=
  if ¬ (loan.status ≠ LoanStatus.Repaid ∧ loan.status ≠ LoanStatus.Expired) then
    .error "Loan already finalized"
  else if ¬ loan.terms.deadlineBlockNumber ≤ blockNumber then
    .error "Loan has not expired yet"
  else
    .ok { loan with status := LoanStatus.Expired }

/-- Folding a sequence of repayment submissions over one loan.  A rejected
call reverts, so the loan is kept unchanged and the next call proceeds from
the same loan state (each submission is its own transaction). -/
def runRepayments (blockNumber : Nat) (loan : LoanOrder) : List Nat → LoanOrder
  | [] => loan
  | a :: rest =>
    match noteLoanRepaymentStep blockNumber a loan with
    | .ok loan' => runRepayments blockNumber loan' rest
    | .error _ => runRepayments blockNumber loan rest

/-! ## Concrete sample loans (used by witnesses and counterexamples) -/

/-- The scenario loan of the loan-flow README: 1000 lent at 500 basis points,
1050 expected back, deadline at block 10. -/
def demoTerms : LoanTerms :=
  { loanAmount := 1000, interestRate := 500,
    expectedRepaymentAmount := 1050, deadlineBlockNumber := 10 }

def demoFundFlow : LoanFlow := { fromAddr := 1, toAddr := 2, withToken := 3 }

def demoRepayFlow : LoanFlow := { fromAddr := 2, toAddr := 1, withToken := 3 }

def demoLoanCreated : LoanOrder :=
  { fundFlow := demoFundFlow, repayFlow := demoRepayFlow, terms := demoTerms,
    signatureOfLender := [], signatureOfBorrower := [], createdAtBlock := 0,
    status := LoanStatus.Created, repaidAmount := 0 }

def demoLoanFunded : LoanOrder := { demoLoanCreated with status := LoanStatus.Funded }

def demoLoanRepaid : LoanOrder :=
  { demoLoanCreated with status := LoanStatus.Repaid, repaidAmount := 1050 }

/-! ## Lemmas about the repayment transition -/

/-- An accepted repayment call adds exactly `amount` and picks the status by
comparing the new cumulative amount against the expected repayment. -/
theorem noteLoanRepaymentStep_ok (blockNumber amount : Nat) (loan : LoanOrder)
    (hst : loan.status = LoanStatus.Funded ∨ loan.status = LoanStatus.PartlyRepaid)
    (hbn : blockNumber ≤ loan.terms.deadlineBlockNumber) :
    noteLoanRepaymentStep blockNumber amount loan =
      .ok { loan with
              repaidAmount := loan.repaidAmount + amount
              status :=
                if loan.terms.expectedRepaymentAmount ≤ loan.repaidAmount + amount
                then LoanStatus.Repaid else LoanStatus.PartlyRepaid } := by
  unfold noteLoanRepaymentStep
  rw [if_neg (not_not_intro hst), if_neg (not_not_intro hbn)]
  by_cases h : loan.terms.expectedRepaymentAmount ≤ loan.repaidAmount + amount
  · rw [if_pos h, if_pos h]
  · rw [if_neg h, if_neg h]

/-- Prefix behaviour of a sequence of repayments: as long as the cumulative
amount before a call is still strictly below the expected repayment, the call
is accepted, adds its amount, and yields `Repaid` exactly when the new
cumulative amount meets or exceeds the target, `PartlyRepaid` otherwise. -/
theorem runRepayments_prefix (blockNumber : Nat) :
    ∀ (k : Nat) (amts : List Nat) (loan : LoanOrder),
    k < amts.length →
    (loan.status = LoanStatus.Funded ∨ loan.status = LoanStatus.PartlyRepaid) →
    blockNumber ≤ loan.terms.deadlineBlockNumber →
    loan.repaidAmount + (amts.take k).sum < loan.terms.expectedRepaymentAmount →
    (runRepayments blockNumber loan (amts.take (k+1))).repaidAmount
        = loan.repaidAmount + (amts.take (k+1)).sum ∧
    (runRepayments blockNumber loan (amts.take (k+1))).status
        = (if loan.terms.expectedRepaymentAmount ≤ loan.repaidAmount + (amts.take (k+1)).sum
           then LoanStatus.Repaid else LoanStatus.PartlyRepaid) := by
  intro k
  induction k with
  | zero =>
    intro amts loan hk hst hbn _
    match amts, hk with
    | a :: rest, _ =>
      rw [List.take_succ_cons, List.take_zero]
      simp only [runRepayments, noteLoanRepaymentStep_ok blockNumber a loan hst hbn,
        List.sum_cons, List.sum_nil, Nat.add_zero]
      exact ⟨trivial, trivial⟩
  | succ k ih =>
    intro amts loan hk hst hbn hcum
    match amts, hk with
    | a :: rest, hk =>
      have hklt : k < rest.length := by simpa using Nat.lt_of_succ_lt_succ hk
      rw [List.take_succ_cons] at hcum
      simp only [List.sum_cons] at hcum
      have hbelow : loan.terms.expectedRepaymentAmount ≤ loan.repaidAmount + a → False := by
        intro hle
        exact absurd (Nat.lt_of_le_of_lt
          (Nat.le_add_right _ (rest.take k).sum)
          (by simpa [Nat.add_assoc] using hcum)) (Nat.not_lt_of_le hle)
      rw [List.take_succ_cons]
      simp only [runRepayments, noteLoanRepaymentStep_ok blockNumber a loan hst hbn]
      rw [if_neg hbelow]
      have ih' := ih rest
        { loan with repaidAmount := loan.repaidAmount + a, status := LoanStatus.PartlyRepaid }
        hklt (Or.inr rfl) hbn (by simpa [Nat.add_assoc] using hcum)
      simpa [Nat.add_assoc, List.sum_cons] using ih'

/-! ## Claim theorems for the loan lifecycle -/

/-- C3: a `noteRepayment` call in any status other than `Funded`/`PartlyRepaid`
is rejected with the invalid-state error, a call after the deadline is rejected
with the expiry error (both without mutation: a revert discards state), and an
accepted call adds exactly the decoded amount, becoming `Repaid` exactly when
the cumulative amount first meets or exceeds `expectedRepaymentAmount` and
`PartlyRepaid` on every earlier call of the sequence. -/
theorem noteLoanRepayment_cumulative_spec (blockNumber amount : Nat) (loan : LoanOrder) :
    (loan.status ≠ LoanStatus.Funded ∧ loan.status ≠ LoanStatus.PartlyRepaid →
      noteLoanRepaymentStep blockNumber amount loan =
        .error "Invalid loan status for repayment") ∧
    ((loan.status = LoanStatus.Funded ∨ loan.status = LoanStatus.PartlyRepaid) →
      loan.terms.deadlineBlockNumber < blockNumber →
      noteLoanRepaymentStep blockNumber amount loan = .error "Loan has expired") ∧
    ((loan.status = LoanStatus.Funded ∨ loan.status = LoanStatus.PartlyRepaid) →
      blockNumber ≤ loan.terms.deadlineBlockNumber →
      noteLoanRepaymentStep blockNumber amount loan =
        .ok { loan with
                repaidAmount := loan.repaidAmount + amount
                status :=
                  if loan.terms.expectedRepaymentAmount ≤ loan.repaidAmount + amount
                  then LoanStatus.Repaid else LoanStatus.PartlyRepaid }) ∧
    (∀ (k : Nat) (amts : List Nat),
      k < amts.length →
      (loan.status = LoanStatus.Funded ∨ loan.status = LoanStatus.PartlyRepaid) →
      blockNumber ≤ loan.terms.deadlineBlockNumber →
      loan.repaidAmount + (amts.take k).sum < loan.terms.expectedRepaymentAmount →
      (runRepayments blockNumber loan (amts.take (k+1))).repaidAmount
          = loan.repaidAmount + (amts.take (k+1)).sum ∧
      (runRepayments blockNumber loan (amts.take (k+1))).status
          = (if loan.terms.expectedRepaymentAmount ≤ loan.repaidAmount + (amts.take (k+1)).sum
             then LoanStatus.Repaid else LoanStatus.PartlyRepaid)) := by
  refine ⟨?_, ?_, ?_, ?_⟩
  · intro h
    unfold noteLoanRepaymentStep
    rw [if_pos (by rintro (h1 | h1) <;> [exact h.1 h1; exact h.2 h1])]
  · intro hst hbn
    unfold noteLoanRepaymentStep
    rw [if_neg (not_not_intro hst), if_pos (Nat.not_le_of_lt hbn)]
  · exact fun hst hbn => noteLoanRepaymentStep_ok blockNumber amount loan hst hbn
  · exact fun k amts hk hst hbn hcum =>
      runRepayments_prefix blockNumber k amts loan hk hst hbn hcum

/-- Witness for C3: the README repayment scenario.  A funded 1000/1050 loan
repaid with [1000, 50] before the deadline is `PartlyRepaid` after the first
call and `Repaid` with `repaidAmount = 1050` after the second. -/
theorem noteLoanRepayment_cumulative_spec_witness :
    (runRepayments 5 demoLoanFunded ([1000, 50].take 1)).repaidAmount = 1000 ∧
    (runRepayments 5 demoLoanFunded ([1000, 50].take 1)).status = LoanStatus.PartlyRepaid ∧
    (runRepayments 5 demoLoanFunded ([1000, 50].take 2)).repaidAmount = 1050 ∧
    (runRepayments 5 demoLoanFunded ([1000, 50].take 2)).status = LoanStatus.Repaid := by
  have h1 := (noteLoanRepayment_cumulative_spec 5 1000 demoLoanFunded).2.2.2
    0 [1000, 50] (by decide) (Or.inl rfl) (by decide) (by decide)
  have h2 := (noteLoanRepayment_cumulative_spec 5 1000 demoLoanFunded).2.2.2
    1 [1000, 50] (by decide) (Or.inl rfl) (by decide) (by decide)
  refine ⟨by simpa using h1.1, by simpa using h1.2, by simpa using h2.1, by simpa using h2.2⟩

/-- C7: `Repaid` and `Expired` are terminal.  Every transition rejects a loan
in one of these statuses (a revert leaves status and `repaidAmount` untouched),
and `markLoanAsExpired` rejects it with the `"Loan already finalized"` error. -/
theorem terminal_states_frozen (blockNumber amount : Nat) (loan : LoanOrder)
    (hterm : loan.status = LoanStatus.Repaid ∨ loan.status = LoanStatus.Expired) :
    markLoanAsFundedStep blockNumber loan = .error "Loan is not in Created status" ∧
    noteLoanRepaymentStep blockNumber amount loan =
      .error "Invalid loan status for repayment" ∧
    markLoanAsExpiredStep blockNumber loan = .error "Loan already finalized" := by
  rcases hterm with h | h <;>
    simp [markLoanAsFundedStep, noteLoanRepaymentStep, markLoanAsExpiredStep, h]

/-- Witness for C7 on a concrete fully repaid loan. -/
theorem terminal_states_frozen_witness :
    markLoanAsFundedStep 20 demoLoanRepaid = .error "Loan is not in Created status" ∧
    noteLoanRepaymentStep 20 7 demoLoanRepaid =
      .error "Invalid loan status for repayment" ∧
    markLoanAsExpiredStep 20 demoLoanRepaid = .error "Loan already finalized" :=
  terminal_states_frozen 20 7 demoLoanRepaid (Or.inl rfl)

/-- C9 counterexample: the claim says `markFunded` fails once the deadline
height has been reached, but the source guard is
`require(block.number <= loan.terms.deadlineBlockNumber)`, so a call at
exactly the deadline height still succeeds: a Created loan with deadline 10
is marked Funded by a call at block 10. -/
theorem markLoanAsFunded_at_deadline_succeeds :
    demoLoanCreated.status = LoanStatus.Created ∧
    demoLoanCreated.terms.deadlineBlockNumber = 10 ∧
    markLoanAsFundedStep 10 demoLoanCreated =
      .ok { demoLoanCreated with status := LoanStatus.Funded } :=
  ⟨rfl, rfl, rfl⟩

/-- C9 (amended): `markFunded` succeeds exactly when the loan is `Created` and
the current block height is at or before `deadlineBlockNumber`; a non-Created
status fails with the invalid-state error and a call strictly after the
deadline fails with the expiry error, both leaving the loan unchanged. -/
theorem markLoanAsFunded_spec (blockNumber : Nat) (loan : LoanOrder) :
    (loan.status ≠ LoanStatus.Created →
      markLoanAsFundedStep blockNumber loan = .error "Loan is not in Created status") ∧
    (loan.status = LoanStatus.Created →
      loan.terms.deadlineBlockNumber < blockNumber →
      markLoanAsFundedStep blockNumber loan = .error "Loan has expired") ∧
    (loan.status = LoanStatus.Created →
      blockNumber ≤ loan.terms.deadlineBlockNumber →
      markLoanAsFundedStep blockNumber loan =
        .ok { loan with status := LoanStatus.Funded }) := by
  refine ⟨?_, ?_, ?_⟩
  · intro h
    unfold markLoanAsFundedStep
    rw [if_pos h]
  · intro hst hbn
    unfold markLoanAsFundedStep
    rw [if_neg (not_not_intro hst), if_pos (Nat.not_le_of_lt hbn)]
  · intro hst hbn
    unfold markLoanAsFundedStep
    rw [if_neg (not_not_intro hst), if_neg (not_not_intro hbn)]

/-- Witness for C9's amended theorem: funding a Created loan before its
deadline succeeds; funding an already Funded loan fails. -/
theorem markLoanAsFunded_spec_witness :
    markLoanAsFundedStep 5 demoLoanCreated =
      .ok { demoLoanCreated with status := LoanStatus.Funded } ∧
    markLoanAsFundedStep 5 demoLoanFunded = .error "Loan is not in Created status" :=
  ⟨(markLoanAsFunded_spec 5 demoLoanCreated).2.2 rfl (by decide),
   (markLoanAsFunded_spec 5 demoLoanFunded).1 (by decide)⟩

/-! ## Loan registration (`USCLoanManager.registerLoan`, lines 71-135)

The contract-level state: `loanOrders` and `registeredLoans` mappings and the
`nextLoanId` counter (set to 1 in the constructor).  The `onlyOwner` modifier
comes from the external OpenZeppelin `Ownable` library and is outside the loan
logic; theorems below describe calls made by the owner.  keccak256 over
`abi.encodePacked` of all ten loan fields composed with
`toEthSignedMessageHash`, and `ECDSA.recover`, are external primitives and
appear as the parameters `msgHash` and `recover`. -/

/-- Events emitted by `USCLoanManager`. -/
inductive LoanEvent where
  | LoanRegistered (loanId lender borrower loanAmount repayAmount deadlineBlockNumber : Nat)
  | LoanFunded (loanId : Nat)
  | LoanRepaid (loanId : Nat)
  | LoanPartiallyRepaid (loanId amount : Nat)
  | LoanExpired (loanId : Nat)
deriving DecidableEq

/-- The all-zero `LoanOrder` a Solidity mapping returns for an unset key
(enum default is its first member, `Created`). -/
def LoanOrder.zero : LoanOrder :=
  { fundFlow := { fromAddr := 0, toAddr := 0, withToken := 0 }
    repayFlow := { fromAddr := 0, toAddr := 0, withToken := 0 }
    terms := { loanAmount := 0, interestRate := 0
               expectedRepaymentAmount := 0, deadlineBlockNumber := 0 }
    signatureOfLender := []
    signatureOfBorrower := []
    createdAtBlock := 0
    status := LoanStatus.Created
    repaidAmount := 0 }

structure LoanManagerState where
  loanOrders : Nat → LoanOrder
  registeredLoans : Nat → Bool
  nextLoanId : Nat

/-- Constructor: `nextLoanId = 1`, empty mappings. -/
def USCLoanManager.initialState : LoanManagerState :=
  { loanOrders := fun _ => LoanOrder.zero
    registeredLoans := fun _ => false
    nextLoanId := 1 }

/-- `registerLoan` — term checks, then signature recovery against
`fundFlow.from` (lender) and `fundFlow.to` (borrower), then storage of the new
loan under `nextLoanId` with status `Created` and `repaidAmount = 0`, and the
counter increment.  Returns the assigned id with the emitted event. -/
def USCLoanManager.registerLoan
    (msgHash : LoanFlow → LoanFlow → LoanTerms → Nat)
    (recover : Nat → List Nat → Nat)
    (blockNumber : Nat) (st : LoanManagerState)
    (fundFlow repayFlow : LoanFlow) (loanTerms : LoanTerms)
    (signatureOfLender signatureOfBorrower : List Nat) :
    Except String (LoanManagerState × Nat × LoanEvent) :=
  if ¬ 0 < loanTerms.loanAmount then
    .error "Loan amount must be greater than 0"
  else if ¬ blockNumber < loanTerms.deadlineBlockNumber then
    .error "Deadline must be in the future"
  else if ¬ loanTerms.loanAmount ≤ loanTerms.expectedRepaymentAmount then
    .error "Repayment amount must be >= loan amount"
  else
    let ethSignedMessageHash := msgHash fundFlow repayFlow loanTerms
    let recoveredLender := recover ethSignedMessageHash signatureOfLender
    let recoveredBorrower := recover ethSignedMessageHash signatureOfBorrower
    if ¬ recoveredLender = fundFlow.fromAddr then
      .error "Invalid lender signature"
    else if ¬ recoveredBorrower = fundFlow.toAddr then
      .error "Invalid borrower signature"
    else
      let loanId := st.nextLoanId
      let newLoan : LoanOrder :=
        { fundFlow := fundFlow
          repayFlow := repayFlow
          terms := loanTerms
          signatureOfLender := signatureOfLender
          signatureOfBorrower := signatureOfBorrower
          createdAtBlock := blockNumber
          status := LoanStatus.Created
          repaidAmount := 0 }
      .ok ({ loanOrders := fun i => if i = loanId then newLoan else st.loanOrders i
             registeredLoans := fun i => if i = loanId then true else st.registeredLoans i
             nextLoanId := st.nextLoanId + 1 },
           loanId,
           LoanEvent.LoanRegistered loanId fundFlow.fromAddr fundFlow.toAddr
             loanTerms.loanAmount loanTerms.expectedRepaymentAmount
             loanTerms.deadlineBlockNumber)

/-- A recovery function and terms used by the C4 counterexample: every
signature recovers to address 99, which matches neither demo party. -/
def badRecover : Nat → List Nat → Nat := fun _ _ => 99

def zeroPackedHash : LoanFlow → LoanFlow → LoanTerms → Nat := fun _ _ _ => 0

def zeroAmountTerms : LoanTerms :=
  { demoTerms with loanAmount := 0 }

/-- C4 counterexample: the claim demands `InvalidSignature` whenever a
recovered signer mismatches, but the term checks run first: with
`loanAmount = 0` and signatures recovering to 99 (matching neither
`fundFlow.from = 1` nor `fundFlow.to = 2`), the call fails with the
loan-amount `InvalidTerms` message, not a signature error. -/
theorem registerLoan_terms_precede_signature :
    badRecover (zeroPackedHash demoFundFlow demoRepayFlow zeroAmountTerms) [] ≠
      demoFundFlow.fromAddr ∧
    USCLoanManager.registerLoan zeroPackedHash badRecover 0 USCLoanManager.initialState
        demoFundFlow demoRepayFlow zeroAmountTerms [] [] =
      .error "Loan amount must be greater than 0" ∧
    (Except.error "Loan amount must be greater than 0" :
        Except String (LoanManagerState × Nat × LoanEvent)) ≠
      .error "Invalid lender signature" :=
  ⟨by decide, rfl, by simp⟩

/-- C4 (amended): `registerLoan` creates no loan and fails with the matching
`InvalidTerms` message whenever `loanAmount = 0`, the deadline is not in the
future, or `expectedRepaymentAmount < loanAmount`; when the terms pass, it
fails with `InvalidSignature` whenever the lender signature does not recover
to `fundFlow.from` or the borrower signature to `fundFlow.to` over the
canonical encoding of all loan fields (term checks take precedence over
signature checks); on success it assigns `nextLoanId` — which starts at 1 —
stores the loan with status `Created` and `repaidAmount = 0`, and increments
the counter. -/
theorem registerLoan_spec
    (msgHash : LoanFlow → LoanFlow → LoanTerms → Nat)
    (recover : Nat → List Nat → Nat)
    (blockNumber : Nat) (st : LoanManagerState)
    (fundFlow repayFlow : LoanFlow) (loanTerms : LoanTerms)
    (sigL sigB : List Nat) :
    USCLoanManager.initialState.nextLoanId = 1 ∧
    (loanTerms.loanAmount = 0 →
      USCLoanManager.registerLoan msgHash recover blockNumber st
          fundFlow repayFlow loanTerms sigL sigB =
        .error "Loan amount must be greater than 0") ∧
    (0 < loanTerms.loanAmount → loanTerms.deadlineBlockNumber ≤ blockNumber →
      USCLoanManager.registerLoan msgHash recover blockNumber st
          fundFlow repayFlow loanTerms sigL sigB =
        .error "Deadline must be in the future") ∧
    (0 < loanTerms.loanAmount → blockNumber < loanTerms.deadlineBlockNumber →
      loanTerms.expectedRepaymentAmount < loanTerms.loanAmount →
      USCLoanManager.registerLoan msgHash recover blockNumber st
          fundFlow repayFlow loanTerms sigL sigB =
        .error "Repayment amount must be >= loan amount") ∧
    (0 < loanTerms.loanAmount → blockNumber < loanTerms.deadlineBlockNumber →
      loanTerms.loanAmount ≤ loanTerms.expectedRepaymentAmount →
      recover (msgHash fundFlow repayFlow loanTerms) sigL ≠ fundFlow.fromAddr →
      USCLoanManager.registerLoan msgHash recover blockNumber st
          fundFlow repayFlow loanTerms sigL sigB =
        .error "Invalid lender signature") ∧
    (0 < loanTerms.loanAmount → blockNumber < loanTerms.deadlineBlockNumber →
      loanTerms.loanAmount ≤ loanTerms.expectedRepaymentAmount →
      recover (msgHash fundFlow repayFlow loanTerms) sigL = fundFlow.fromAddr →
      recover (msgHash fundFlow repayFlow loanTerms) sigB ≠ fundFlow.toAddr →
      USCLoanManager.registerLoan msgHash recover blockNumber st
          fundFlow repayFlow loanTerms sigL sigB =
        .error "Invalid borrower signature") ∧
    (0 < loanTerms.loanAmount → blockNumber < loanTerms.deadlineBlockNumber →
      loanTerms.loanAmount ≤ loanTerms.expectedRepaymentAmount →
      recover (msgHash fundFlow repayFlow loanTerms) sigL = fundFlow.fromAddr →
      recover (msgHash fundFlow repayFlow loanTerms) sigB = fundFlow.toAddr →
      ∀ st' loanId ev,
        USCLoanManager.registerLoan msgHash recover blockNumber st
            fundFlow repayFlow loanTerms sigL sigB = .ok (st', loanId, ev) →
        loanId = st.nextLoanId ∧
        st'.nextLoanId = st.nextLoanId + 1 ∧
        (st'.loanOrders loanId).status = LoanStatus.Created ∧
        (st'.loanOrders loanId).repaidAmount = 0 ∧
        (st'.loanOrders loanId).terms = loanTerms ∧
        st'.registeredLoans loanId = true ∧
        ev = LoanEvent.LoanRegistered loanId fundFlow.fromAddr fundFlow.toAddr
          loanTerms.loanAmount loanTerms.expectedRepaymentAmount
          loanTerms.deadlineBlockNumber) := by
  unfold USCLoanManager.registerLoan
  refine ⟨rfl, ?_, ?_, ?_, ?_, ?_, ?_⟩
  · intro h
    rw [if_pos (by simp [h])]
  · intro h1 h2
    rw [if_neg (not_not_intro h1), if_pos (Nat.not_lt_of_le h2)]
  · intro h1 h2 h3
    rw [if_neg (not_not_intro h1), if_neg (not_not_intro h2),
      if_pos (Nat.not_le_of_lt h3)]
  · intro h1 h2 h3 h4
    rw [if_neg (not_not_intro h1), if_neg (not_not_intro h2),
      if_neg (not_not_intro h3)]
    simp only [if_pos h4]
  · intro h1 h2 h3 h4 h5
    rw [if_neg (not_not_intro h1), if_neg (not_not_intro h2),
      if_neg (not_not_intro h3)]
    simp only [if_neg (not_not_intro h4), if_pos h5]
  · intro h1 h2 h3 h4 h5 st' loanId ev hok
    rw [if_neg (not_not_intro h1), if_neg (not_not_intro h2),
      if_neg (not_not_intro h3)] at hok
    simp only [if_neg (not_not_intro h4), if_neg (not_not_intro h5),
      Except.ok.injEq, Prod.mk.injEq] at hok
    obtain ⟨hst, hid, hev⟩ := hok
    subst hst hid hev
    simp

/-- Witness for C4's amended theorem: a registration with matching signatures
on the initial state assigns loan id 1, and one with `loanAmount = 0` fails
with the loan-amount message. -/
theorem registerLoan_spec_witness :
    (USCLoanManager.registerLoan zeroPackedHash
        (fun _ sig => if sig = [1] then 1 else 2) 0 USCLoanManager.initialState
        demoFundFlow demoRepayFlow demoTerms [1] [2]).toOption.map
        (fun r => (r.2.1, r.1.nextLoanId,
          (r.1.loanOrders r.2.1).status, (r.1.loanOrders r.2.1).repaidAmount))
      = some (1, 2, LoanStatus.Created, 0) ∧
    USCLoanManager.registerLoan zeroPackedHash badRecover 5 USCLoanManager.initialState
        demoFundFlow demoRepayFlow zeroAmountTerms [] [] =
      .error "Loan amount must be greater than 0" := by
  refine ⟨rfl, ?_⟩
  exact (registerLoan_spec zeroPackedHash badRecover 5 USCLoanManager.initialState
    demoFundFlow demoRepayFlow zeroAmountTerms [] []).2.1 (by decide)

/-! ## Proof-gated execution (`contracts/sol/USCBase.sol`)

`execute` computes the query identity
`keccak256(chainKey ‖ blockHeight ‖ txIndex)` (the packed 72-byte buffer built
in assembly), rejects identities already in `processedQueries`, calls the
verifier precompile, records the identity and dispatches to the virtual
`_processAndEmitEvent`.  keccak256 and the verifier are external: the hash
appears as the parameter `qhash`, the verifier's outcome for the submitted
proof as the boolean `verify`, and the virtual action handler as `process`.
A Solidity revert rolls back every store, so although the source writes
`processedQueries[queryId] = true` before `_processAndEmitEvent`, the
committed post-state is the one modelled here: no `Except.error` result
changes state. -/

/-- `INativeQueryVerifier.MerkleProofEntry` — `(bytes32 hash, bool isLeft)`. -/
structure MerkleProofEntry where
  hash : Nat
  isLeft : Bool
deriving DecidableEq

/-- Modelled from the spec: `NativeQueryVerifierLib._calculateTransactionIndex`
is declared in `VerifierInterface.sol`, which is not among the provided
sources (only its reference tests, commented out in `contracts/DEPLOY.md`,
and its callers are).  Spec §4.1: the sibling path is ordered leaf→root and
entry *i* contributes bit *i* of the leaf index, least-significant bit first,
with bit value 1 when the sibling sits on the left.  This agrees with the
reference tests (path `isLeft = [true,false,true]` ↦ index 5,
`[true,false,false,false,true,false,true]` ↦ 81). -/
def calculateTransactionIndex (siblings : List MerkleProofEntry) : Nat :=
  siblings.foldr (fun e acc => 2 * acc + (if e.isLeft then 1 else 0)) 0

/-- State shared by `USCBase` descendants: the replay guard plus whatever
domain state (`δ`) the concrete contract maintains. -/
structure BaseState (δ : Type) where
  processedQueries : Nat → Bool
  domain : δ

/-- `USCBase.execute` (lines 23-49). -/
def USCBase.execute {δ : Type}
    (qhash : Nat → Nat → Nat → Nat)
    (verify : Bool)
    (process : Nat → Nat → δ → Except String δ)
    (st : BaseState δ)
    (action chainKey blockHeight : Nat)
    (siblings : List MerkleProofEntry) :
    Except String (BaseState δ) :=
  let queryId := qhash chainKey blockHeight (calculateTransactionIndex siblings)
  if st.processedQueries queryId then .error "Query already processed"
  else if ¬ verify then .error "Proof of inclusion verification failed"
  else
    match process action queryId st.domain with
    | .error e => .error e
    | .ok d =>
      .ok { processedQueries := fun q => if q = queryId then true else st.processedQueries q
            domain := d }

/-- `USCBase.executeDev` (lines 52-78): identical to `execute` except that the
`require(!processedQueries[queryId], ...)` line is commented out.  The final
`processedQueries[queryId] = true` store is still present. -/
def USCBase.executeDev {δ : Type}
    (qhash : Nat → Nat → Nat → Nat)
    (verify : Bool)
    (process : Nat → Nat → δ → Except String δ)
    (st : BaseState δ)
    (action chainKey blockHeight : Nat)
    (siblings : List MerkleProofEntry) :
    Except String (BaseState δ) :=
  let queryId := qhash chainKey blockHeight (calculateTransactionIndex siblings)
  if ¬ verify then .error "Proof of inclusion verification failed"
  else
    match process action queryId st.domain with
    | .error e => .error e
    | .ok d =>
      .ok { processedQueries := fun q => if q = queryId then true else st.processedQueries q
            domain := d }

/-- Concrete instantiations used by the witnesses for the execute claims. -/
def wHash : Nat → Nat → Nat → Nat := fun a b c => a * 4 + b * 2 + c + 1

def wProcess : Nat → Nat → Nat → Except String Nat := fun _ _ d => .ok (d + 1)

def wFreshBase : BaseState Nat :=
  { processedQueries := fun _ => false, domain := 0 }

/-- C2 counterexample: the claim says `executeDev` never adds the computed
query identity to `processedQueries`, but on a fresh state a successful
`executeDev` call records the identity (here `wHash 1 2 0 = 9`): the flag for
identity 9 is `true` afterwards. -/
theorem executeDev_records_identity :
    wFreshBase.processedQueries (wHash 1 2 0) = false ∧
    (USCBase.executeDev wHash true wProcess wFreshBase 0 1 2 []).toOption.map
        (fun st => st.processedQueries (wHash 1 2 0)) = some true := by
  constructor <;> rfl

/-- C2 (amended): `executeDev` skips only step 2 of the dispatch protocol —
it never rejects an already-processed identity (an `AlreadyProcessed` error
can only bubble up from the inner action handler, never from the dispatcher
itself), and a call with a verifying proof succeeds whenever the handler
does, regardless of the replay-guard flag — but it still performs step 4:
every successful call records the computed identity in `processedQueries`. -/
theorem executeDev_skips_only_check {δ : Type}
    (qhash : Nat → Nat → Nat → Nat)
    (verify : Bool)
    (process : Nat → Nat → δ → Except String δ)
    (st : BaseState δ)
    (action chainKey blockHeight : Nat)
    (siblings : List MerkleProofEntry) :
    (∀ d, verify = true →
      process action (qhash chainKey blockHeight (calculateTransactionIndex siblings))
          st.domain = .ok d →
      USCBase.executeDev qhash verify process st action chainKey blockHeight siblings =
        .ok { processedQueries := fun q =>
                if q = qhash chainKey blockHeight (calculateTransactionIndex siblings)
                then true else st.processedQueries q
              domain := d }) ∧
    (USCBase.executeDev qhash verify process st action chainKey blockHeight siblings =
        .error "Query already processed" →
      process action (qhash chainKey blockHeight (calculateTransactionIndex siblings))
          st.domain = .error "Query already processed") ∧
    (∀ st', USCBase.executeDev qhash verify process st action chainKey blockHeight siblings =
        .ok st' →
      st'.processedQueries (qhash chainKey blockHeight (calculateTransactionIndex siblings))
        = true) := by
  refine ⟨?_, ?_, ?_⟩
  · intro d hver hproc
    unfold USCBase.executeDev
    rw [if_neg (by simp [hver])]
    simp only [hproc]
  · intro h
    unfold USCBase.executeDev at h
    by_cases hver : verify
    · rw [if_neg (by simp [hver])] at h
      revert h
      cases hproc : process action
          (qhash chainKey blockHeight (calculateTransactionIndex siblings)) st.domain with
      | error e =>
        intro h
        simpa using h
      | ok d =>
        intro h
        simp at h
    · rw [if_pos (by simp [hver])] at h
      simp at h
  · intro st' h
    unfold USCBase.executeDev at h
    by_cases hver : verify
    · rw [if_neg (by simp [hver])] at h
      revert h
      cases hproc : process action
          (qhash chainKey blockHeight (calculateTransactionIndex siblings)) st.domain with
      | error e =>
        intro h
        simp at h
      | ok d =>
        intro h
        simp only [Except.ok.injEq] at h
        subst h
        simp
    · rw [if_pos (by simp [hver])] at h
      simp at h

/-- Witness for C2's amended theorem: on a state where identity 9 is already
flagged, `executeDev` still succeeds and keeps the flag set. -/
theorem executeDev_skips_only_check_witness :
    USCBase.executeDev wHash true wProcess
        { processedQueries := fun q => q = 9, domain := (0 : Nat) } 0 1 2 [] =
      .ok { processedQueries := fun q => if q = 9 then true else q = 9
            domain := 1 } :=
  (executeDev_skips_only_check wHash true wProcess
      { processedQueries := fun q => q = 9, domain := 0 } 0 1 2 []).1 1 rfl rfl

/-! ## Decoded transactions (`contracts/sol/EvmV1Decoder.sol`)

The decoder library turns the ABI-encoded `(uint8, bytes[])` buffer into the
structured fields the contracts read.  The contracts only consume four
projections — the type tag, the receipt status, the receipt logs and the
common `from` field — so the embedding represents a submitted
`encodedTransaction` by those decoded projections. -/

/-- `struct LogEntry { address address_; bytes32[] topics; bytes data; }`
(`data` as a byte list). -/
structure LogEntry where
  address_ : Nat
  topics : List Nat
  data : List Nat
deriving DecidableEq

/-- The projections of an `encodedTransaction` that the contracts decode. -/
structure EncodedTx where
  txType : Nat
  txFrom : Nat
  receiptStatus : Nat
  receiptLogs : List LogEntry
deriving DecidableEq

/-- `EvmV1Decoder.isValidTransactionType`: `txType <= 4`. -/
def isValidTransactionType (txType : Nat) : Bool := txType ≤ 4

/-- `EvmV1Decoder.getLogsByEventSignature`: keeps the logs whose first topic
equals the event signature. -/
def getLogsByEventSignature (logs : List LogEntry) (eventSignature : Nat) :
    List LogEntry :=
  logs.filter fun l =>
    match l.topics with
    | [] => false
    | t :: _ => t == eventSignature

/-- `abi.decode(log.data, (uint256))` over an exactly 32-byte buffer:
big-endian byte concatenation. -/
def decodeWord (bytes : List Nat) : Nat :=
  bytes.foldl (fun acc b => 256 * acc + b % 256) 0

/-! ## The minter contracts

Two `SimpleMinterUSC` variants exist in the repository.  The one in
`contracts/sol/SimpleMinterUSC.sol` watches the dedicated
`TokensBurnedForBridging(address,uint256)` event and mints to the burner
address carried in the log's indexed topic; the hello-bridge variant
(appended to `contracts/sol/LoanTypes.sol`) watches plain ERC-20
`Transfer(address,address,uint256)` events, treats a transfer from the
transaction sender to an address below 128 as a burn, and mints to
`msg.sender`. -/

def BURN_EVENT_SIGNATURE : Nat :=
  0x17dc4d6f69d484e59be774c29b47d2fa4c14af2e01df42fc5643ac968f4d427e

def TRANSFER_EVENT_SIGNATURE : Nat :=
  0xddf252ad1be2c89b69c2b068fc378daa952ba7f163c4a11628f55a4df523b3ef

/-- ERC-20 state of a minter plus its replay guard. -/
structure MinterState where
  processedQueries : Nat → Bool
  balances : Nat → Nat
  totalSupply : Nat

/-- OpenZeppelin `_mint`: adds to total supply and the recipient balance. -/
def ERC20.mint (st : MinterState) (account value : Nat) : MinterState :=
  { st with
      totalSupply := st.totalSupply + value
      balances := fun a => if a = account then st.balances a + value else st.balances a }

/-- `event TokensMinted(address indexed token, address indexed recipient,
uint256 amount, bytes32 indexed queryId)`. -/
structure TokensMinted where
  token : Nat
  recipient : Nat
  amount : Nat
  queryId : Nat
deriving DecidableEq

/-- `SimpleMinterUSC._processBurnLogs`: takes the first burn log, requires
exactly two topics headed by the burn signature and a 32-byte payload, and
returns the burner address (`address(uint160(uint256(topics[1])))`) with the
decoded amount. -/
def SimpleMinterUSC.processBurnLogs (burnLogs : List LogEntry) :
    Except String (Nat × Nat) :=
  match burnLogs with
  | [] => .error "No burn logs"
  | log :: _ =>
    match log.topics with
    | [t0, t1] =>
      if t0 ≠ BURN_EVENT_SIGNATURE then .error "Not TokensBurnedForBridging event"
      else if log.data.length ≠ 32 then .error "Not burn event: data len"
      else .ok (t1 % 2 ^ 160, decodeWord log.data)
    | _ => .error "Invalid TokensBurnedForBridging topics"

/-- `SimpleMinterUSC._validateTransactionContents`: type tag, receipt status,
burn-log presence, then `_processBurnLogs`. -/
def SimpleMinterUSC.validateTransactionContents (tx : EncodedTx) :
    Except String (Nat × Nat) :=
  if ¬ isValidTransactionType tx.txType then .error "Unsupported transaction type"
  else if tx.receiptStatus ≠ 1 then .error "Transaction did not succeed"
  else
    let burnLogs := getLogsByEventSignature tx.receiptLogs BURN_EVENT_SIGNATURE
    if burnLogs.length = 0 then .error "No burn events found"
    else SimpleMinterUSC.processBurnLogs burnLogs

/-- `SimpleMinterUSC.mintFromQuery` (burn-event variant, lines 90-133):
replay check on the computed key, proof verification, replay mark, content
validation, `_mint(burnSender, burnValue)` and the `TokensMinted` event. -/
def SimpleMinterUSC.mintFromQuery
    (qhash : Nat → Nat → Nat → Nat)
    (verify : Bool)
    (selfAddr : Nat)
    (st : MinterState)
    (chainKey blockHeight : Nat)
    (tx : EncodedTx)
    (siblings : List MerkleProofEntry) :
    Except String (MinterState × TokensMinted) :=
  let txKey := qhash chainKey blockHeight (calculateTransactionIndex siblings)
  if st.processedQueries txKey then .error "Query already processed"
  else if ¬ verify then .error "Verification failed"
  else
    match SimpleMinterUSC.validateTransactionContents tx with
    | .error e => .error e
    | .ok (burnSender, burnValue) =>
      let marked : MinterState :=
        { st with processedQueries := fun q => if q = txKey then true else st.processedQueries q }
      .ok (ERC20.mint marked burnSender burnValue,
           { token := selfAddr, recipient := burnSender, amount := burnValue, queryId := txKey })

/-- `_processTransferLogs` of the Transfer-based variant: scans the Transfer
logs for the first one whose `from` is the transaction sender and whose `to`
is below address 128 (treated as a burn) and decodes its value.  The topic
length `require` is commented out in the source, so reading `topics[1]` or
`topics[2]` of a shorter log is a Solidity array-bounds panic. -/
def TransferMinterUSC.processTransferLogs (targetSourceAddress : Nat) :
    List LogEntry → Except String (Bool × Nat)
  | [] => .ok (false, 0)
  | log :: rest =>
    match log.topics with
    | _t0 :: t1 :: t2 :: _ =>
      if t1 % 2 ^ 160 = targetSourceAddress ∧ t2 % 2 ^ 160 < 128 then
        if log.data.length ≠ 32 then .error "Not ERC20 Transfer: data len"
        else .ok (true, decodeWord log.data)
      else TransferMinterUSC.processTransferLogs targetSourceAddress rest
    | _ => .error "panic: array out-of-bounds access"

/-- `_validateTransactionContents` of the Transfer-based variant. -/
def TransferMinterUSC.validateTransactionContents (tx : EncodedTx) :
    Except String (Bool × Nat) :=
  if ¬ isValidTransactionType tx.txType then .error "Unsupported transaction type"
  else if tx.receiptStatus ≠ 1 then .error "Transaction did not succeed"
  else
    let transferLogs := getLogsByEventSignature tx.receiptLogs TRANSFER_EVENT_SIGNATURE
    if transferLogs.length = 0 then .error "No transfer events found"
    else
      match TransferMinterUSC.processTransferLogs tx.txFrom transferLogs with
      | .error e => .error e
      | .ok (found, burnValue) =>
        if ¬ found then .error "No valid burn transfer found"
        else .ok (true, burnValue)

/-- `mintFromQuery` of the Transfer-based variant (LoanTypes.sol appendix,
lines 364-408): identical gating, but the mint and the event recipient are
`msg.sender`, the account submitting the proof. -/
def TransferMinterUSC.mintFromQuery
    (qhash : Nat → Nat → Nat → Nat)
    (verify : Bool)
    (selfAddr msgSender : Nat)
    (st : MinterState)
    (chainKey blockHeight : Nat)
    (tx : EncodedTx)
    (siblings : List MerkleProofEntry) :
    Except String (MinterState × TokensMinted) :=
  let txKey := qhash chainKey blockHeight (calculateTransactionIndex siblings)
  if st.processedQueries txKey then .error "Query already processed"
  else if ¬ verify then .error "Verification failed"
  else
    match TransferMinterUSC.validateTransactionContents tx with
    | .error e => .error e
    | .ok (_valid, burnValue) =>
      let marked : MinterState :=
        { st with processedQueries := fun q => if q = txKey then true else st.processedQueries q }
      .ok (ERC20.mint marked msgSender burnValue,
           { token := selfAddr, recipient := msgSender, amount := burnValue, queryId := txKey })

/-! ## Claim theorems for the proof-gated entry points -/

/-- C1: for a fixed query identity, once a first `execute` (or
`mintFromQuery`) call succeeds, the identity is recorded (and no other
replay-guard entry is touched), and a second call whose proof produces the
same identity is rejected with the `"Query already processed"` signal; a
rejected call reverts, so it commits no balance, loan or replay-guard
change — the domain mutation runs exactly once. -/
theorem execute_at_most_once {δ : Type}
    (qhash : Nat → Nat → Nat → Nat)
    (verify₁ verify₂ : Bool)
    (process : Nat → Nat → δ → Except String δ)
    (st st₁ : BaseState δ)
    (action₁ chainKey₁ blockHeight₁ action₂ chainKey₂ blockHeight₂ : Nat)
    (siblings₁ siblings₂ : List MerkleProofEntry)
    (selfAddr : Nat) (mst mst₁ : MinterState) (ev : TokensMinted)
    (mtx₁ mtx₂ : EncodedTx) :
    (qhash chainKey₂ blockHeight₂ (calculateTransactionIndex siblings₂)
        = qhash chainKey₁ blockHeight₁ (calculateTransactionIndex siblings₁) →
      USCBase.execute qhash verify₁ process st action₁ chainKey₁ blockHeight₁ siblings₁
        = .ok st₁ →
      st₁.processedQueries
          (qhash chainKey₁ blockHeight₁ (calculateTransactionIndex siblings₁)) = true ∧
      (∀ q, q ≠ qhash chainKey₁ blockHeight₁ (calculateTransactionIndex siblings₁) →
        st₁.processedQueries q = st.processedQueries q) ∧
      USCBase.execute qhash verify₂ process st₁ action₂ chainKey₂ blockHeight₂ siblings₂
        = .error "Query already processed") ∧
    (qhash chainKey₂ blockHeight₂ (calculateTransactionIndex siblings₂)
        = qhash chainKey₁ blockHeight₁ (calculateTransactionIndex siblings₁) →
      SimpleMinterUSC.mintFromQuery qhash verify₁ selfAddr mst chainKey₁ blockHeight₁
          mtx₁ siblings₁ = .ok (mst₁, ev) →
      mst₁.processedQueries
          (qhash chainKey₁ blockHeight₁ (calculateTransactionIndex siblings₁)) = true ∧
      (∀ q, q ≠ qhash chainKey₁ blockHeight₁ (calculateTransactionIndex siblings₁) →
        mst₁.processedQueries q = mst.processedQueries q) ∧
      SimpleMinterUSC.mintFromQuery qhash verify₂ selfAddr mst₁ chainKey₂ blockHeight₂
          mtx₂ siblings₂ = .error "Query already processed") := by
  constructor
  · intro hsame h1
    unfold USCBase.execute at h1 ⊢
    by_cases hflag : st.processedQueries
        (qhash chainKey₁ blockHeight₁ (calculateTransactionIndex siblings₁))
    · rw [if_pos hflag] at h1
      exact absurd h1 (by simp)
    · rw [if_neg hflag] at h1
      by_cases hver : verify₁
      · rw [if_neg (by simp [hver])] at h1
        revert h1
        cases hproc : process action₁
            (qhash chainKey₁ blockHeight₁ (calculateTransactionIndex siblings₁))
            st.domain with
        | error e => intro h1; simp at h1
        | ok d =>
          intro h1
          simp only [Except.ok.injEq] at h1
          subst h1
          refine ⟨by simp, fun q hq => by simp [hq], ?_⟩
          rw [if_pos (by simp [hsame])]
      · rw [if_pos (by simp [hver])] at h1
        simp at h1
  · intro hsame h1
    unfold SimpleMinterUSC.mintFromQuery at h1 ⊢
    by_cases hflag : mst.processedQueries
        (qhash chainKey₁ blockHeight₁ (calculateTransactionIndex siblings₁))
    · rw [if_pos hflag] at h1
      exact absurd h1 (by simp)
    · rw [if_neg hflag] at h1
      by_cases hver : verify₁
      · rw [if_neg (by simp [hver])] at h1
        revert h1
        cases hval : SimpleMinterUSC.validateTransactionContents mtx₁ with
        | error e => intro h1; simp at h1
        | ok p =>
          intro h1
          simp only [Except.ok.injEq, Prod.mk.injEq] at h1
          obtain ⟨hst, -⟩ := h1
          subst hst
          refine ⟨by simp [ERC20.mint], fun q hq => by simp [ERC20.mint, hq], ?_⟩
          rw [if_pos (by simp [ERC20.mint, hsame])]
      · rw [if_pos (by simp [hver])] at h1
        simp at h1

/-- A concrete burn transaction: a successful type-0 receipt with one
`TokensBurnedForBridging` log crediting address 4 with 7 tokens. -/
def wBurnData : List Nat := List.replicate 31 0 ++ [7]

def wBurnTx : EncodedTx :=
  { txType := 0
    txFrom := 5
    receiptStatus := 1
    receiptLogs := [{ address_ := 3, topics := [BURN_EVENT_SIGNATURE, 4], data := wBurnData }] }

def wFreshMinter : MinterState :=
  { processedQueries := fun _ => false, balances := fun _ => 0, totalSupply := 0 }

/-- Witness for C1: a successful first call on the fresh dispatcher and on
the fresh minter, and the rejected second submission of the same identity
(`wHash 1 2 0 = 9`) in both variants. -/
theorem execute_at_most_once_witness :
    USCBase.execute wHash true wProcess wFreshBase 0 1 2 [] =
      .ok { processedQueries := fun q => if q = 9 then true else false, domain := 1 } ∧
    USCBase.execute wHash true wProcess
        { processedQueries := fun q => if q = 9 then true else false, domain := 1 }
        0 1 2 [] = .error "Query already processed" ∧
    SimpleMinterUSC.mintFromQuery wHash true 8
        { processedQueries := fun q => if q = 9 then true else false
          balances := fun a => if a = 4 then 7 else 0
          totalSupply := 7 } 1 2 wBurnTx [] = .error "Query already processed" := by
  refine ⟨rfl, ?_, ?_⟩
  · exact ((execute_at_most_once wHash true true wProcess wFreshBase
      { processedQueries := fun q => if q = 9 then true else false, domain := 1 }
      0 1 2 0 1 2 [] [] 8 wFreshMinter wFreshMinter
      { token := 8, recipient := 4, amount := 7, queryId := 9 } wBurnTx wBurnTx).1
      rfl rfl).2.2
  · exact ((execute_at_most_once wHash true true wProcess wFreshBase
      { processedQueries := fun q => if q = 9 then true else false, domain := 1 }
      0 1 2 0 1 2 [] [] 8 wFreshMinter
      { processedQueries := fun q => if q = 9 then true else false
        balances := fun a => if a = 4 then 7 else 0
        totalSupply := 7 }
      { token := 8, recipient := 4, amount := 7, queryId := 9 } wBurnTx wBurnTx).2
      rfl rfl).2.2

/-! ## Mint targeting (claim C8) -/

/-- A successful `_processBurnLogs` reads the first burn log: the returned
sender is `topics[1]` truncated to an address, and the returned value is the
decoded 32-byte payload of that same log. -/
theorem processBurnLogs_ok (burnLogs : List LogEntry) (bs bv : Nat)
    (h : SimpleMinterUSC.processBurnLogs burnLogs = .ok (bs, bv)) :
    ∃ log rest, burnLogs = log :: rest ∧
      ∃ t1, log.topics = [BURN_EVENT_SIGNATURE, t1] ∧
        bs = t1 % 2 ^ 160 ∧ log.data.length = 32 ∧ bv = decodeWord log.data := by
  match burnLogs with
  | [] => simp [SimpleMinterUSC.processBurnLogs] at h
  | log :: rest =>
    refine ⟨log, rest, rfl, ?_⟩
    obtain ⟨addr, topics, data⟩ := log
    match topics with
    | [] => simp [SimpleMinterUSC.processBurnLogs] at h
    | [t0] => simp [SimpleMinterUSC.processBurnLogs] at h
    | t0 :: t1 :: t2 :: ts => simp [SimpleMinterUSC.processBurnLogs] at h
    | [t0, t1] =>
      simp only [SimpleMinterUSC.processBurnLogs] at h
      by_cases hsig : t0 = BURN_EVENT_SIGNATURE
      · rw [if_neg (not_not_intro hsig)] at h
        by_cases hlen : data.length = 32
        · rw [if_neg (not_not_intro hlen)] at h
          simp only [Except.ok.injEq, Prod.mk.injEq] at h
          exact ⟨t1, by simp [hsig], h.1.symm, hlen, h.2.symm⟩
        · rw [if_pos hlen] at h
          simp at h
      · rw [if_pos hsig] at h
        simp at h

/-- A successful content validation of the burn-event minter is exactly a
successful `_processBurnLogs` over the signature-filtered logs. -/
theorem validateTransactionContents_ok (tx : EncodedTx) (bs bv : Nat)
    (h : SimpleMinterUSC.validateTransactionContents tx = .ok (bs, bv)) :
    SimpleMinterUSC.processBurnLogs
      (getLogsByEventSignature tx.receiptLogs BURN_EVENT_SIGNATURE) = .ok (bs, bv) := by
  unfold SimpleMinterUSC.validateTransactionContents at h
  by_cases htype : isValidTransactionType tx.txType
  · rw [if_neg (by simp [htype])] at h
    by_cases hstatus : tx.receiptStatus = 1
    · rw [if_neg (not_not_intro hstatus)] at h
      by_cases hlen : (getLogsByEventSignature tx.receiptLogs BURN_EVENT_SIGNATURE).length = 0
      · rw [if_pos hlen] at h
        simp at h
      · rwa [if_neg hlen] at h
    · rw [if_pos hstatus] at h
      simp at h
  · rw [if_pos (by simp [htype])] at h
    simp at h

/-- A Transfer-based burn: a successful receipt whose only log is an ERC-20
`Transfer` from address 1 (the transaction sender) to address 0, moving 5
tokens. -/
def cexTransferData : List Nat := List.replicate 31 0 ++ [5]

def cexTransferTx : EncodedTx :=
  { txType := 0
    txFrom := 1
    receiptStatus := 1
    receiptLogs :=
      [{ address_ := 3, topics := [TRANSFER_EVENT_SIGNATURE, 1, 0], data := cexTransferData }] }

/-- C8 counterexample: in the Transfer-based `mintFromQuery` variant (cited
lines 364-408 of the LoanTypes.sol file), the burn log records address 1 as
the burner, yet a submission by caller 2 mints the 5 burned tokens to the
caller: afterwards address 2 holds 5 and the log's address 1 holds 0, and the
emitted event names recipient 2 — not the beneficiary recovered from the
proved burn event's log. -/
theorem transfer_mint_goes_to_caller :
    (cexTransferTx.receiptLogs.map LogEntry.topics)
      = [[TRANSFER_EVENT_SIGNATURE, 1, 0]] ∧
    (TransferMinterUSC.mintFromQuery wHash true 8 2 wFreshMinter 1 2
        cexTransferTx []).toOption.map
        (fun r => (r.2.recipient, r.1.balances 2, r.1.balances 1)) = some (2, 5, 0) := by
  constructor <;> rfl

/-- C8 (amended): on a successful mint submission with a verified, previously
unprocessed proof, the burn-event minter (`SimpleMinterUSC.sol`) mints the
full decoded burn amount to the beneficiary address recovered from the proved
burn event's log — the first filtered burn log's indexed topic truncated to
an address, with the amount decoded from that log's 32-byte payload — and
emits `TokensMinted(contract, beneficiary, amount, queryId)`; the
Transfer-based variant mints the full decoded amount to `msg.sender` (the
submitting caller), not to an address recovered from the log, and emits
`TokensMinted(contract, msg.sender, amount, queryId)`. -/
theorem mintFromQuery_targets
    (qhash : Nat → Nat → Nat → Nat)
    (selfAddr msgSender chainKey blockHeight : Nat)
    (st : MinterState) (tx : EncodedTx) (siblings : List MerkleProofEntry) :
    (∀ bs bv,
      st.processedQueries (qhash chainKey blockHeight (calculateTransactionIndex siblings))
        = false →
      SimpleMinterUSC.validateTransactionContents tx = .ok (bs, bv) →
      (∃ log rest,
        getLogsByEventSignature tx.receiptLogs BURN_EVENT_SIGNATURE = log :: rest ∧
        ∃ t1, log.topics = [BURN_EVENT_SIGNATURE, t1] ∧
          bs = t1 % 2 ^ 160 ∧ bv = decodeWord log.data) ∧
      ∀ st' ev,
        SimpleMinterUSC.mintFromQuery qhash true selfAddr st chainKey blockHeight
            tx siblings = .ok (st', ev) →
        st'.balances bs = st.balances bs + bv ∧
        (∀ a, a ≠ bs → st'.balances a = st.balances a) ∧
        st'.totalSupply = st.totalSupply + bv ∧
        ev = { token := selfAddr, recipient := bs, amount := bv
               queryId := qhash chainKey blockHeight (calculateTransactionIndex siblings) }) ∧
    (∀ bv,
      st.processedQueries (qhash chainKey blockHeight (calculateTransactionIndex siblings))
        = false →
      TransferMinterUSC.validateTransactionContents tx = .ok (true, bv) →
      ∀ st' ev,
        TransferMinterUSC.mintFromQuery qhash true selfAddr msgSender st chainKey
            blockHeight tx siblings = .ok (st', ev) →
        st'.balances msgSender = st.balances msgSender + bv ∧
        (∀ a, a ≠ msgSender → st'.balances a = st.balances a) ∧
        st'.totalSupply = st.totalSupply + bv ∧
        ev = { token := selfAddr, recipient := msgSender, amount := bv
               queryId := qhash chainKey blockHeight (calculateTransactionIndex siblings) }) := by
  constructor
  · intro bs bv hfresh hval
    obtain ⟨log, rest, hlogs, t1, htop, hbs, -, hbv⟩ :=
      processBurnLogs_ok _ bs bv (validateTransactionContents_ok tx bs bv hval)
    refine ⟨⟨log, rest, hlogs, t1, htop, hbs, hbv⟩, ?_⟩
    intro st' ev h
    unfold SimpleMinterUSC.mintFromQuery at h
    rw [if_neg (by simp [hfresh])] at h
    rw [if_neg (by simp)] at h
    rw [hval] at h
    simp only [Except.ok.injEq, Prod.mk.injEq] at h
    obtain ⟨hst, hev⟩ := h
    subst hst
    subst hev
    refine ⟨by simp [ERC20.mint], fun a ha => by simp [ERC20.mint, ha], by simp [ERC20.mint], rfl⟩
  · intro bv hfresh hval
    intro st' ev h
    unfold TransferMinterUSC.mintFromQuery at h
    rw [if_neg (by simp [hfresh])] at h
    rw [if_neg (by simp)] at h
    rw [hval] at h
    simp only [Except.ok.injEq, Prod.mk.injEq] at h
    obtain ⟨hst, hev⟩ := h
    subst hst
    subst hev
    refine ⟨by simp [ERC20.mint], fun a ha => by simp [ERC20.mint, ha], by simp [ERC20.mint], rfl⟩

/-- Witness for C8's amended theorem: the concrete burn submission `wBurnTx`
mints 7 tokens to address 4 (the log's indexed beneficiary), and the concrete
Transfer submission `cexTransferTx` by caller 2 mints 5 tokens to caller 2. -/
theorem mintFromQuery_targets_witness :
    ((SimpleMinterUSC.mintFromQuery wHash true 8 wFreshMinter 1 2 wBurnTx []).toOption.map
      (fun r => (r.1.balances 4, r.2))) =
        some (7, { token := 8, recipient := 4, amount := 7, queryId := 9 }) ∧
    ((TransferMinterUSC.mintFromQuery wHash true 8 2 wFreshMinter 1 2
        cexTransferTx []).toOption.map (fun r => (r.1.balances 2, r.2))) =
      some (5, { token := 8, recipient := 2, amount := 5, queryId := 9 }) := by
  constructor
  · have h := ((mintFromQuery_targets wHash 8 2 1 2 wFreshMinter wBurnTx []).1
      4 7 rfl rfl).2
      { processedQueries := fun q => if q = 9 then true else false
        balances := fun a => if a = 4 then 7 else 0
        totalSupply := 7 }
      { token := 8, recipient := 4, amount := 7, queryId := 9 } rfl
    simp only [Except.toOption, Option.map]
    rw [show SimpleMinterUSC.mintFromQuery wHash true 8 wFreshMinter 1 2 wBurnTx [] =
      .ok ({ processedQueries := fun q => if q = 9 then true else false
             balances := fun a => if a = 4 then 7 else 0
             totalSupply := 7 },
           { token := 8, recipient := 4, amount := 7, queryId := 9 }) from rfl]
    simp [h.1]
  · have h := ((mintFromQuery_targets wHash 8 2 1 2 wFreshMinter cexTransferTx []).2
      5 rfl rfl)
      { processedQueries := fun q => if q = 9 then true else false
        balances := fun a => if a = 2 then 5 else 0
        totalSupply := 5 }
      { token := 8, recipient := 2, amount := 5, queryId := 9 } rfl
    simp only [Except.toOption, Option.map]
    rw [show TransferMinterUSC.mintFromQuery wHash true 8 2 wFreshMinter 1 2
        cexTransferTx [] =
      .ok ({ processedQueries := fun q => if q = 9 then true else false
             balances := fun a => if a = 2 then 5 else 0
             totalSupply := 5 },
           { token := 8, recipient := 2, amount := 5, queryId := 9 }) from rfl]
    simp [h.1]

/-! ## The polling engine (`utils/index.ts` `pollEvents`, duplicated in
`bridge-offchain-worker/worker.ts`)

```
try {
  const currentBlock = await contract.runner?.provider?.getBlockNumber();
  if (!currentBlock || currentBlock < fromBlock) { return fromBlock; }
  const events = await contract.queryFilter(eventName, fromBlock, currentBlock);
  for (const event of events) {
    if (event instanceof EventLog) { await handler(event); }
  }
  return currentBlock + 1;
} catch (error) { ...backoff...; return fromBlock; }
```

The RPC interactions are the parameters: `getBlockNumber` may throw
(`Except.error`) or yield `none` (an absent `runner`/`provider`, JavaScript
`undefined`); `queryFilter` may throw; the handler may throw.  JavaScript's
`!currentBlock` is true both for `undefined` and for the number `0`.  The
returned pair is the next cursor together with the list of events whose
handler ran to completion, in emission order (handler side effects before a
throw are kept, matching the try/catch). -/

structure EthEvent where
  blockNumber : Nat
  isEventLog : Bool
  payload : Nat
deriving DecidableEq

/-- The `for`-loop body: run the handler over each `EventLog` entry in order,
stopping at the first handler throw. -/
def runHandlers (handler : EthEvent → Except String Unit) :
    List EthEvent → List EthEvent × Option String
  | [] => ([], none)
  | e :: rest =>
    if e.isEventLog then
      match handler e with
      | .error err => ([], some err)
      | .ok _ =>
        let r := runHandlers handler rest
        (e :: r.1, r.2)
    else runHandlers handler rest

def pollEvents
    (getBlockNumber : Except String (Option Nat))
    (queryFilter : Nat → Nat → Except String (List EthEvent))
    (handler : EthEvent → Except String Unit)
    (fromBlock : Nat) : Nat × List EthEvent :=
  match getBlockNumber with
  | .error _ => (fromBlock, [])
  | .ok none => (fromBlock, [])
  | .ok (some currentBlock) =>
    if currentBlock = 0 ∨ currentBlock < fromBlock then (fromBlock, [])
    else
      match queryFilter fromBlock currentBlock with
      | .error _ => (fromBlock, [])
      | .ok events =>
        match runHandlers handler events with
        | (handled, some _) => (fromBlock, handled)
        | (handled, none) => (currentBlock + 1, handled)

/-- When every handler call succeeds, the loop handles exactly the `EventLog`
entries, in order. -/
theorem runHandlers_all_ok (handler : EthEvent → Except String Unit) :
    ∀ events : List EthEvent,
    (∀ e ∈ events, handler e = .ok ()) →
    runHandlers handler events = (events.filter (fun e => e.isEventLog), none) := by
  intro events
  induction events with
  | nil => intro _; rfl
  | cons e rest ih =>
    intro hall
    by_cases hev : e.isEventLog
    · simp only [runHandlers, if_pos hev, hall e (by simp)]
      rw [ih (fun x hx => hall x (by simp [hx]))]
      simp [List.filter, hev]
    · simp only [runHandlers, if_neg hev]
      rw [ih (fun x hx => hall x (by simp [hx]))]
      simp [List.filter, hev]

/-- C5 counterexample: with the chain height reported as `0` and cursor `0`,
the current height is not below the cursor, so the claim requires the range
`[0, 0]` to be scanned and cursor `1` returned; but JavaScript's
`!currentBlock` guard treats height `0` as falsy, so the single event in
block 0 is not handled and the cursor stays `0`. -/
theorem pollEvents_zero_height :
    pollEvents (.ok (some 0))
        (fun _ _ => .ok [{ blockNumber := 0, isEventLog := true, payload := 42 }])
        (fun _ => .ok ()) 0 = (0, []) ∧
    ((0 : Nat), ([] : List EthEvent)) ≠
      (0 + 1, [{ blockNumber := 0, isEventLog := true, payload := 42 }]) := by
  exact ⟨rfl, by simp⟩

/-- C5 (amended): `pollEvents` returns the cursor unchanged, with nothing
handled, whenever reading the chain height throws or yields no provider,
whenever the reported height is `0` (JavaScript falsiness) or below the
cursor, and whenever scanning the range throws; a mid-loop handler throw also
leaves the cursor unchanged, keeping the events already handled.  Otherwise
it handles every `EventLog` entry returned for the inclusive range
`[cursor, current]`, in emission order, and returns `current + 1`. -/
theorem pollEvents_spec
    (queryFilter : Nat → Nat → Except String (List EthEvent))
    (handler : EthEvent → Except String Unit)
    (fromBlock : Nat) :
    (∀ err, pollEvents (.error err) queryFilter handler fromBlock = (fromBlock, [])) ∧
    (pollEvents (.ok none) queryFilter handler fromBlock = (fromBlock, [])) ∧
    (∀ currentBlock, currentBlock = 0 ∨ currentBlock < fromBlock →
      pollEvents (.ok (some currentBlock)) queryFilter handler fromBlock
        = (fromBlock, [])) ∧
    (∀ currentBlock err, ¬ (currentBlock = 0 ∨ currentBlock < fromBlock) →
      queryFilter fromBlock currentBlock = .error err →
      pollEvents (.ok (some currentBlock)) queryFilter handler fromBlock
        = (fromBlock, [])) ∧
    (∀ currentBlock events handled err,
      ¬ (currentBlock = 0 ∨ currentBlock < fromBlock) →
      queryFilter fromBlock currentBlock = .ok events →
      runHandlers handler events = (handled, some err) →
      pollEvents (.ok (some currentBlock)) queryFilter handler fromBlock
        = (fromBlock, handled)) ∧
    (∀ currentBlock events, ¬ (currentBlock = 0 ∨ currentBlock < fromBlock) →
      queryFilter fromBlock currentBlock = .ok events →
      (∀ e ∈ events, handler e = .ok ()) →
      pollEvents (.ok (some currentBlock)) queryFilter handler fromBlock
        = (currentBlock + 1, events.filter (fun e => e.isEventLog))) := by
  refine ⟨fun err => rfl, rfl, ?_, ?_, ?_, ?_⟩
  · intro currentBlock hc
    simp only [pollEvents]
    rw [if_pos hc]
  · intro currentBlock err hc hq
    simp only [pollEvents, hq]
    rw [if_neg hc]
  · intro currentBlock events handled err hc hq hrun
    simp only [pollEvents, hq, hrun]
    rw [if_neg hc]
  · intro currentBlock events hc hq hall
    simp only [pollEvents, hq, runHandlers_all_ok handler events hall]
    rw [if_neg hc]

/-- Witness for C5's amended theorem: a normal cycle from cursor 3 at height
5 handles the two `EventLog` entries (skipping the plain log) and advances
the cursor to 6; a throwing scan from the same cursor leaves it at 3. -/
theorem pollEvents_spec_witness :
    pollEvents (.ok (some 5))
        (fun _ _ => .ok
          [{ blockNumber := 3, isEventLog := true, payload := 10 },
           { blockNumber := 4, isEventLog := false, payload := 11 },
           { blockNumber := 5, isEventLog := true, payload := 12 }])
        (fun _ => .ok ()) 3 =
      (6, [{ blockNumber := 3, isEventLog := true, payload := 10 },
           { blockNumber := 5, isEventLog := true, payload := 12 }]) ∧
    pollEvents (.ok (some 5)) (fun _ _ => .error "rpc failure") (fun _ => .ok ()) 3
      = (3, []) := by
  constructor
  · exact (pollEvents_spec
      (fun _ _ => .ok
        [{ blockNumber := 3, isEventLog := true, payload := 10 },
         { blockNumber := 4, isEventLog := false, payload := 11 },
         { blockNumber := 5, isEventLog := true, payload := 12 }])
      (fun _ => .ok ()) 3).2.2.2.2.2 5 _ (by simp) rfl (fun e _ => rfl)
  · exact (pollEvents_spec (fun _ _ => .error "rpc failure")
      (fun _ => .ok ()) 3).2.2.2.1 5 "rpc failure" (by simp) rfl

/-! ## The processed-transaction cache (both workers)

```
const processedBurnTxs = new Set<string>();
...
if (processedBurnTxs.size > MAX_PROCESSED_TXS) { processedBurnTxs.clear(); }
```

Transaction hashes are modelled as naturals; the `Set` is a `Finset`.  The
cap check runs once per polling cycle, after the cycle's handlers have done
their inserts. -/

def MAX_PROCESSED_TXS : Nat := 1000

/-- One polling cycle's effect on the cache: the handlers' inserts followed
by the end-of-cycle cap check, which clears the whole set. -/
def cacheCycle (cache : Finset Nat) (inserted : List Nat) : Finset Nat :=
  let afterInserts := inserted.foldl (fun s x => insert x s) cache
  if MAX_PROCESSED_TXS < afterInserts.card then ∅ else afterInserts

/-- C6 counterexample: a cache holding hashes 0..999 (exactly the cap)
receives the insert of hash 1000 during a cycle; the end-of-cycle check fires
and `clear()` empties the whole set, so the element that triggered the clear
is *not* present and the cache is empty — contradicting the claim that it
survives and the cache is non-empty. -/
theorem cacheCycle_clears_everything :
    (Finset.range 1000).card = MAX_PROCESSED_TXS ∧
    cacheCycle (Finset.range 1000) [1000] = ∅ ∧
    1000 ∉ cacheCycle (Finset.range 1000) [1000] := by
  have hcard : (insert 1000 (Finset.range 1000)).card = 1001 := by
    rw [Finset.card_insert_of_not_mem (by simp), Finset.card_range]
  have hclear : cacheCycle (Finset.range 1000) [1000] = ∅ := by
    unfold cacheCycle
    simp only [List.foldl]
    rw [if_pos (by rw [hcard]; norm_num [MAX_PROCESSED_TXS])]
  exact ⟨by simp [MAX_PROCESSED_TXS], hclear, by simp [hclear]⟩

/-- C6 (amended): whenever the cycle's inserts push the cache size above the
cap, the end-of-cycle check clears the entire cache — including the elements
inserted that cycle — leaving it empty; when the cap is not exceeded, the
cache keeps exactly the old entries plus the cycle's inserts. -/
theorem cacheCycle_spec (cache : Finset Nat) (inserted : List Nat) :
    (MAX_PROCESSED_TXS < (inserted.foldl (fun s x => insert x s) cache).card →
      cacheCycle cache inserted = ∅ ∧ ∀ x, x ∉ cacheCycle cache inserted) ∧
    ((inserted.foldl (fun s x => insert x s) cache).card ≤ MAX_PROCESSED_TXS →
      cacheCycle cache inserted = inserted.foldl (fun s x => insert x s) cache) := by
  constructor
  · intro hover
    have h : cacheCycle cache inserted = ∅ := by
      unfold cacheCycle
      rw [if_pos hover]
    exact ⟨h, fun x => by simp [h]⟩
  · intro hunder
    unfold cacheCycle
    rw [if_neg (Nat.not_lt_of_le hunder)]

/-- Witness for C6's amended theorem, at the counterexample input and at a
small cycle that stays under the cap. -/
theorem cacheCycle_spec_witness :
    cacheCycle (Finset.range 1000) [1000] = ∅ ∧
    cacheCycle {5} [6] = insert 6 {5} := by
  constructor
  · refine ((cacheCycle_spec (Finset.range 1000) [1000]).1 ?_).1
    simp only [List.foldl]
    rw [Finset.card_insert_of_not_mem (by simp), Finset.card_range]
    norm_num [MAX_PROCESSED_TXS]
  · exact (cacheCycle_spec {5} [6]).2 (by simp [MAX_PROCESSED_TXS])

/-! ## Gas estimation (`utils/index.ts` `computeGasLimit`, and `getGasLimit`
in the hello-bridge utils) -/

def GAS_BUFFER_MULTIPLIER : Nat := 135

/-- `computeGasLimit`: buffer a successful estimate by 35%, or fall back to
the linear formula on estimation failure (`estimatedGas = none`). -/
def computeGasLimit (estimatedGas : Option Nat) (continuityLength : Nat) : Nat :=
  match estimatedGas with
  | some estimated => estimated * GAS_BUFFER_MULTIPLIER / 100
  | none => 21000 + continuityLength * 5000 + 20000

/-- `proofData.continuityProof.roots?.length || 1`: JavaScript `||` yields
the right operand when the left is falsy — both for a missing roots array
and for an empty one (`length` 0). -/
def continuityBlocksOf (roots : Option (List Nat)) : Nat :=
  match roots with
  | none => 1
  | some rs => if rs.length = 0 then 1 else rs.length

/-- `computeGasLimitForMinter` / `computeGasLimitForLoanManager`: feed
`computeGasLimit` with `roots?.length || 1`. -/
def computeGasLimitForMinter (estimatedGas : Option Nat) (roots : Option (List Nat)) :
    Nat :=
  computeGasLimit estimatedGas (continuityBlocksOf roots)

/-- `getGasLimit` (hello-bridge utils): same estimate-then-fallback shape,
with `roots?.length || 1` computed inside the catch branch. -/
def getGasLimit (estimatedGas : Option Nat) (roots : Option (List Nat)) : Nat :=
  match estimatedGas with
  | some estimated => estimated * GAS_BUFFER_MULTIPLIER / 100
  | none => 21000 + continuityBlocksOf roots * 5000 + 20000

/-- C10 counterexample: for a proof whose continuity-roots list is empty, the
claim's formula gives `21000 + 0 * 5000 + 20000 = 41000`, but the fallback
substitutes `|| 1` for the falsy length 0 and returns 46000. -/
theorem gasFallback_empty_roots :
    computeGasLimitForMinter none (some []) = 46000 ∧
    getGasLimit none (some []) = 46000 ∧
    21000 + ([] : List Nat).length * 5000 + 20000 = 41000 ∧
    (46000 : Nat) ≠ 41000 := by
  refine ⟨rfl, rfl, rfl, by norm_num⟩

/-- C10 (amended): when direct estimation fails, the fallback budget is
`21000 + n * 5000 + 20000` where `n` is the number of continuity roots if
that number is nonzero, and `1` when the roots list is empty or absent
(JavaScript `roots?.length || 1`). -/
theorem gasFallback_spec (roots : Option (List Nat)) :
    computeGasLimitForMinter none roots
      = 21000 + continuityBlocksOf roots * 5000 + 20000 ∧
    getGasLimit none roots = 21000 + continuityBlocksOf roots * 5000 + 20000 ∧
    (∀ rs, rs.length ≠ 0 → continuityBlocksOf (some rs) = rs.length) ∧
    continuityBlocksOf (some []) = 1 ∧
    continuityBlocksOf none = 1 := by
  refine ⟨rfl, rfl, ?_, rfl, rfl⟩
  intro rs h
  simp only [continuityBlocksOf]
  rw [if_neg h]

/-- Witness for C10's amended theorem: three continuity roots give
`21000 + 3 * 5000 + 20000 = 56000`. -/
theorem gasFallback_spec_witness :
    computeGasLimitForMinter none (some [7, 8, 9]) = 56000 ∧
    continuityBlocksOf (some [7, 8, 9]) = 3 := by
  have h := gasFallback_spec (some [7, 8, 9])
  have h3 : continuityBlocksOf (some [7, 8, 9]) = 3 := h.2.2.1 [7, 8, 9] (by simp)
  exact ⟨by rw [h.1, h3], h3⟩

end USC
